import Mathlib

/-!
Shallow embedding of the CKAN feature provider
(`src/pygeoapi/provider/ckan.py`) and proofs about it.

Modelling conventions:
* JSON scalar values appearing in rows and filters are modelled by `Val`
  (strings and integers; floating-point payloads are out of scope, the
  coordinate coercion `float(...)` is modelled over `Rat`).
* A remote row (one element of `resp.result.records`, a Python dict
  built from a JSON object, hence with unique keys and insertion order)
  is modelled as an association list `Row`.
* One remote HTTP response is modelled by `Page`: its `records`, the
  `resp.result.limit` echo, the `resp.result.total` count and
  whether the HTTP status was bad.  Within one `_load` invocation only the
  `offset` request parameter varies between calls, so the transport is
  modelled as a function from the offset to the `Page` it returns.
* Python exceptions (`KeyError`, `ValueError` from `float`, `IndexError`
  from `list.pop` on an empty list, `ProviderConnectionError`,
  `ProviderQueryError`) are modelled by the `Err` type and `Except`.
* The provider attributes fixed at construction (`resource_id`,
  `id_field`, `x_field`, `y_field`, the stored property projection and
  the cached `numFeatures` total) are gathered in `Config`.  The stored
  projection is a `Finset String` because the source converts it to a
  Python set; the comma-join of a Python set is order-nondeterministic,
  so the `fields` request parameter is modelled as the set itself.
-/

deriving instance DecidableEq for Except

namespace CKAN

/-- A JSON scalar value carried in rows and filters (model restricted to
strings and integers). -/
inductive Val where
  | str : String → Val
  | num : Int → Val
  deriving DecidableEq

/-- A remote row: a Python dict from a JSON object, modelled as an
insertion-ordered association list with unique keys. -/
abbrev Row := List (String × Val)

/-- One remote response, `resp.result` plus the HTTP status.  `bad`
models `r.status_code == codes.bad`. -/
structure Page where
  records : List Row
  limit : Nat
  total : Nat
  bad : Bool
  deriving DecidableEq

/-- A GeoJSON Feature as assembled by `make_feature`: the popped id, the
optional point geometry and the remaining row as properties. -/
structure Feature where
  id : Val
  geometry : Option (Rat × Rat)
  properties : Row
  deriving DecidableEq

/-- The assembled GeoJSON FeatureCollection: the `features` list and the
optional `numberReturned` / `numberMatched` members. -/
structure FeatureCollection where
  features : List Feature
  numberReturned : Option Nat
  numberMatched : Option Nat
  deriving DecidableEq

/-- The Python exceptions the provider can raise. -/
inductive Err where
  | connection
  | query
  | keyError
  | valueError
  | indexError
  deriving DecidableEq

/-- Provider state fixed after construction: configuration plus the
schema cache (`self.properties` after `get_fields`, and
`self.numFeatures`). -/
structure Config where
  resource_id : String
  id_field : String
  x_field : String
  y_field : String
  properties : Finset String
  numFeatures : Nat

/-- Python `dict.pop(k)` on an association list with unique keys: the
value under `k` and the dict with the key removed; `none` models
`KeyError`. -/
def dictPop (k : String) (d : Row) : Option (Val × Row) :=
  match d.lookup k with
  | none => none
  | some v => some (v, d.filter (fun p => p.1 != k))

/-- Digits-only decimal parse used by the simplified `float` model. -/
def parseDigits (l : List Char) : Option Nat :=
  if l.isEmpty then none
  else l.foldlM (fun acc c => if c.isDigit then some (acc * 10 + (c.toNat - 48)) else none) 0

/-- Split a character list at the first dot. -/
def splitDot : List Char → (List Char × Option (List Char))
  | [] => ([], none)
  | c :: cs =>
    if c = '.' then ([], some cs)
    else
      let r := splitDot cs
      (c :: r.1, r.2)

/-- Unsigned part of the simplified `float` model: digits with an
optional fractional part. -/
def parseUnsigned (l : List Char) : Option Rat :=
  match splitDot l with
  | (ip, none) => (parseDigits ip).map (fun n => (n : Rat))
  | (ip, some fp) =>
    if ip.isEmpty && fp.isEmpty then none
    else
      let ipn := if ip.isEmpty then some 0 else parseDigits ip
      let fpn := if fp.isEmpty then some 0 else parseDigits fp
      match ipn, fpn with
      | some a, some b => some ((a : Rat) + (b : Rat) / ((10 : Rat) ^ fp.length))
      | _, _ => none

/-- Simplified model of Python `float(...)` over `Val` (optional sign,
decimal digits, optional fractional part; exponents, whitespace and
special values are not modelled).  `none` models `ValueError`. -/
def pyFloat : Val → Option Rat
  | Val.num n => some (n : Rat)
  | Val.str s =>
    match s.toList with
    | [] => none
    | c :: cs =>
      if c = '-' then (parseUnsigned cs).map Neg.neg
      else if c = '+' then parseUnsigned cs
      else parseUnsigned (c :: cs)

/-- `make_feature(self, f, skip)`: pop the id field; unless `skip`, pop
and float-coerce the two coordinate fields into a Point geometry; the
remaining row becomes `properties`. -/
def make_feature (cfg : Config) (f : Row) (skip : Bool) : Except Err Feature :=
  match dictPop cfg.id_field f with
  | none => Except.error Err.keyError
  | some (idv, f1) =>
    if !skip then
      match dictPop cfg.x_field f1 with
      | none => Except.error Err.keyError
      | some (xv, f2) =>
        match pyFloat xv with
        | none => Except.error Err.valueError
        | some x =>
          match dictPop cfg.y_field f2 with
          | none => Except.error Err.keyError
          | some (yv, f3) =>
            match pyFloat yv with
            | none => Except.error Err.valueError
            | some y =>
              Except.ok { id := idv, geometry := some (x, y), properties := f3 }
    else
      Except.ok { id := idv, geometry := none, properties := f1 }

/-- Lowercase hexadecimal digit, as produced by Python json escapes. -/
def hexDigit (n : Nat) : Char :=
  if n < 10 then Char.ofNat (48 + n) else Char.ofNat (87 + n)

/-- Four lowercase hex digits of a code unit, for a JSON escape. -/
def hex4 (n : Nat) : String :=
  String.mk [hexDigit (n / 4096 % 16), hexDigit (n / 256 % 16), hexDigit (n / 16 % 16), hexDigit (n % 16)]

/-- Escape one character the way Python `json.dumps` (default
`ensure_ascii=True`) does inside a string literal. -/
def escChar (c : Char) : String :=
  if c = '\"' then "\\\""
  else if c = '\\' then "\\\\"
  else if c = '\n' then "\\n"
  else if c = '\t' then "\\t"
  else if c = '\r' then "\\r"
  else if c = Char.ofNat 8 then "\\b"
  else if c = Char.ofNat 12 then "\\f"
  else if c.toNat < 32 then "\\u" ++ hex4 c.toNat
  else if c.toNat < 127 then String.mk [c]
  else if c.toNat < 65536 then "\\u" ++ hex4 c.toNat
  else
    let v := c.toNat - 65536
    "\\u" ++ hex4 (55296 + v / 1024) ++ "\\u" ++ hex4 (56320 + v % 1024)

/-- JSON string literal for `s`, Python `json.dumps` style. -/
def jsonStr (s : String) : String :=
  "\"" ++ String.join (s.toList.map escChar) ++ "\""

/-- Serialization of one `Val`, Python `json.dumps` style. -/
def dumpVal : Val → String
  | Val.str s => jsonStr s
  | Val.num n => toString n

/-- Model of Python `json.dumps` on an insertion-ordered dict of `Val`s:
default separators are a comma-space between members and a colon-space
between key and value. -/
def jsonDumps (d : List (String × Val)) : String :=
  "\x7b" ++ String.intercalate ", " (d.map (fun kv => jsonStr kv.1 ++ ": " ++ dumpVal kv.2)) ++ "\x7d"

/-- Python dict assignment `d[k] = v` on an insertion-ordered association
list: an existing key keeps its position and takes the new value, a new
key is appended. -/
def dictInsert (d : List (String × Val)) (k : String) (v : Val) : List (String × Val) :=
  if d.any (fun p => p.1 == k) then d.map (fun p => if p.1 == k then (k, v) else p)
  else d ++ [(k, v)]

/-- The dict comprehension at the heart of `_make_where`:
`\x7bk: v for (k, v) in properties\x7d`, i.e. sequential insertion. -/
def dictOfPairs (pairs : List (String × Val)) : List (String × Val) :=
  pairs.foldl (fun d kv => dictInsert d kv.1 kv.2) []

/-- `_make_where(self, properties)`: start from the empty dict, update it
with the pairs if any were given, and `json.dumps` the result.  The
source also takes an unused `bbox` parameter (defaulted to the empty
list and never read), omitted here. -/
def _make_where (properties : List (String × Val)) : String :=
  jsonDumps (if properties ≠ [] then dictOfPairs properties else [])

/-- Modelled from the spec for the refinement claim about `_make_where`:
the map obtained by inserting the pairs in order, last value winning for
a repeated field, then JSON-object-string encoded. -/
def specInsertMap (pairs : List (String × Val)) : List (String × Val) :=
  pairs.foldl (fun d kv => dictInsert d kv.1 kv.2) []

/-- One entry of the `sortby` argument: a dict with keys `property` and
`order`. -/
structure SortEntry where
  property : String
  order : String
  deriving DecidableEq

/-- The direction dict mapping + to asc and - to desc of
`_make_orderby`; `none` models the `KeyError` on any other symbol. -/
def dirLookup (o : String) : Option String :=
  if o = "+" then some "asc" else if o = "-" then some "desc" else none

/-- One token of the `_make_orderby` comprehension. -/
def orderToken (e : SortEntry) : Option String :=
  match dirLookup e.order with
  | none => none
  | some d => some (e.property ++ " " ++ d)

/-- The list comprehension of `_make_orderby`, with the `KeyError` of an
unknown direction propagated. -/
def orderTokens : List SortEntry → Option (List String)
  | [] => some []
  | e :: rest =>
    match orderToken e, orderTokens rest with
    | some t, some ts => some (t :: ts)
    | _, _ => none

/-- `_make_orderby(sortby)`: comma-join of the per-entry tokens. -/
def _make_orderby (sortby : List SortEntry) : Option String :=
  (orderTokens sortby).map (fun l => String.intercalate "," l)

/-- The `self.properties` update performed once by `get_fields`: a
non-empty configured projection is replaced by its set union with the
id and coordinate fields; an empty one is left alone. -/
def get_fields_properties (configured : List String) (idf xf yf : String) : Finset String :=
  if configured ≠ [] then configured.toFinset ∪ {idf, xf, yf} else configured.toFinset

/-- The `fields` request parameter of `_load` (lines 168-170): present
when the stored projection or the caller selection is non-empty, and
then the set union of the two.  The comma-join order of a Python set is
nondeterministic, so the parameter is modelled as the set. -/
def load_fields_param (stored : Finset String) (select_properties : List String) : Option (Finset String) :=
  if stored ≠ ∅ ∨ select_properties ≠ [] then some (stored ∪ select_properties.toFinset)
  else none

/-- The request parameters `_load` sends to the remote. -/
structure LoadParams where
  offset : Nat
  limit : Nat
  resource_id : String
  fields : Option (Finset String)
  filters : Option String
  include_total : Bool
  sort : Option String
  deriving DecidableEq

/-- The filters request parameter (lines 172-180): an identifier forces
an exact-match filter on the id field; otherwise the filter is attached
when equality properties or a bbox were given, and encodes the equality
properties only. -/
def load_filters_param (cfg : Config) (identifier : Option Val) (bbox : List Rat)
    (properties : List (String × Val)) : Option String :=
  match identifier with
  | some idv => some (_make_where [(cfg.id_field, idv)])
  | none =>
    if properties ≠ [] ∨ bbox ≠ [] then some (_make_where properties) else none

/-- The include-total flag (lines 182-183): requested only in hits mode,
and never on the identifier path. -/
def load_include_total (identifier : Option Val) (resulttype : String) : Bool :=
  match identifier with
  | some _ => false
  | none => resulttype = "hits"

/-- The sort request parameter (lines 185-186): skipped on the
identifier path; the outer `none` models the `KeyError` raised by
`_make_orderby` on an unknown direction symbol. -/
def load_sort_param (identifier : Option Val) (sortby : List SortEntry) :
    Option (Option String) :=
  match identifier with
  | some _ => some none
  | none =>
    if sortby ≠ [] then
      match _make_orderby sortby with
      | none => none
      | some s => some (some s)
    else some none

/-- The parameter-building prefix of `_load` (lines 157-186).  The
source fills a params dict step by step; each key is set at most once
and the steps are independent, so the dict is assembled here
componentwise.  `none` models the `KeyError` raised while building the
sort clause. -/
def buildLoadParams (cfg : Config) (offset limit : Nat) (resulttype : String)
    (identifier : Option Val) (bbox : List Rat) (properties : List (String × Val))
    (sortby : List SortEntry) (select_properties : List String) : Option LoadParams :=
  match load_sort_param identifier sortby with
  | none => none
  | some sortp =>
    some { offset := offset, limit := limit, resource_id := cfg.resource_id,
           fields := load_fields_param cfg.properties select_properties,
           filters := load_filters_param cfg identifier bbox properties,
           include_total := load_include_total identifier resulttype,
           sort := sortp }

/-- The list comprehension `[self.make_feature(f, skip_geometry) for f in
resp.result.records]`, with the first exception propagated. -/
def translate (mf : Row → Except Err Feature) : List Row → Except Err (List Feature)
  | [] => Except.ok []
  | r :: rs =>
    match mf r, translate mf rs with
    | Except.ok f, Except.ok fs => Except.ok (f :: fs)
    | Except.error e, _ => Except.error e
    | _, Except.error e => Except.error e

/-- The `while len(v) < hits_` loop of `_load` (lines 217-235), with an
explicit fuel argument standing for the maximal number of iterations
(the loop body either breaks, raises, or strictly grows `v`, so `hits`
fuel always suffices; this is proved below).  Arguments after the fixed
ones: remaining fuel, the current `params.offset`, the accumulated
`v`, and the number of loop calls issued so far.  The result pairs the
final `v` with the number of loop calls; `none` means the fuel ran out
with the loop still running. -/
def loopF (remote : Nat → Page) (mf : Row → Except Err Feature) (step hits : Nat) :
    Nat → Nat → List Feature → Nat → Option (Except Err (List Feature × Nat))
  | 0, _, v, calls =>
    if v.length < hits then none else some (Except.ok (v, calls))
  | fuel + 1, offset, v, calls =>
    if v.length < hits then
      let off := offset + step
      let pg := remote off
      if pg.bad then some (Except.error Err.connection)
      else
        match translate mf pg.records with
        | Except.error e => some (Except.error e)
        | Except.ok fs =>
          if fs.length = 0 then some (Except.ok (v, calls + 1))
          else loopF remote mf step hits fuel off (v ++ fs) (calls + 1)
    else some (Except.ok (v, calls))

/-- `_load(self, offset, limit, resulttype, identifier, bbox, datetime_,
properties, sortby, select_properties, skip_geometry, q)`, paired with
the total number of remote calls issued.  The transport is modelled as a
function from the `offset` request parameter (the only one that varies
within an invocation) to the response page.  The loop is run with `hits`
fuel, which always suffices; the fuel-exhaustion branch is dead code
mapped to `Err.query`. -/
def _loadAux (cfg : Config) (remote : Nat → Page) (offset limit : Nat)
    (resulttype : String) (identifier : Option Val) (bbox : List Rat)
    (datetime_ : Option String) (properties : List (String × Val))
    (sortby : List SortEntry) (select_properties : List String)
    (skip_geometry : Bool) (q : Option String) :
    Except Err (FeatureCollection × Nat) :=
  match buildLoadParams cfg offset limit resulttype identifier bbox properties sortby select_properties with
  | none => Except.error Err.keyError
  | some _ =>
    let pg := remote offset
    if pg.bad then Except.error Err.connection
    else if resulttype = "hits" then
      Except.ok ({ features := [], numberReturned := none, numberMatched := some pg.total }, 1)
    else
      match translate (fun f => make_feature cfg f skip_geometry) pg.records with
      | Except.error e => Except.error e
      | Except.ok v =>
        let hits := min pg.limit cfg.numFeatures
        match loopF remote (fun f => make_feature cfg f skip_geometry) v.length hits hits offset v 0 with
        | none => Except.error Err.query
        | some (Except.error e) => Except.error e
        | some (Except.ok (vv, calls)) =>
          Except.ok ({ features := vv, numberReturned := some vv.length, numberMatched := none }, 1 + calls)

/-- `query(...)`: delegates to `_load` with no identifier; only the
feature collection is returned to the caller. -/
def query (cfg : Config) (remote : Nat → Page) (offset limit : Nat)
    (resulttype : String) (bbox : List Rat) (datetime_ : Option String)
    (properties : List (String × Val)) (sortby : List SortEntry)
    (select_properties : List String) (skip_geometry : Bool) (q : Option String) :
    Except Err FeatureCollection :=
  (_loadAux cfg remote offset limit resulttype none bbox datetime_ properties
    sortby select_properties skip_geometry q).map Prod.fst

/-- `get(self, identifier)`: `_load` with the identifier set and all
other arguments at their defaults, then `fc.get(features).pop()` —
the last element of the features list, an `IndexError` when it is
empty. -/
def get (cfg : Config) (remote : Nat → Page) (identifier : Val) :
    Except Err Feature :=
  match _loadAux cfg remote 0 10 "results" (some identifier) [] none [] [] [] false none with
  | Except.error e => Except.error e
  | Except.ok (fc, _) =>
    match fc.features.getLast? with
    | none => Except.error Err.indexError
    | some f => Except.ok f

/-! Concrete inputs used by witnesses and counterexamples. -/

/-- A small concrete configuration shared by witnesses. -/
def cfgW : Config :=
  { resource_id := "r", id_field := "i", x_field := "x", y_field := "y",
    properties := ∅, numFeatures := 10 }

/-- A row carrying only an id, for skip-geometry examples. -/
def idRow (k : Nat) : Row := [("i", Val.num (Int.ofNat k))]

/-- The example row of the spec: id, two string coordinates, one extra
property. -/
def rowW : Row :=
  [("i", Val.str "5"), ("x", Val.str "1.5"), ("y", Val.str "2.5"), ("name", Val.str "foo")]

/-- A variant of the spec example row with integer coordinates, used
where a witness must evaluate the coordinate coercion. -/
def rowN : Row :=
  [("i", Val.str "5"), ("x", Val.num 1), ("y", Val.num 2), ("name", Val.str "foo")]

/-- The Feature that `make_feature` builds from `rowN` with geometry. -/
def ftN : Feature :=
  { id := Val.str "5", geometry := some (((1 : Int) : Rat), ((2 : Int) : Rat)),
    properties := [("name", Val.str "foo")] }

/-- The parameter set built in the C9 witness scenario. -/
def pW : LoadParams :=
  { offset := 0, limit := 10, resource_id := "r", fields := none,
    filters := some "\x7b\"a\": 1\x7d", include_total := false, sort := none }

/-- Concrete remote for the C1 failing input: reported per-call limit 5,
cached total 10, a first page of three rows at offset 0 and a page of
five rows at offset 3. -/
def remoteC1 : Nat → Page :=
  fun off =>
    if off = 0 then { records := [idRow 0, idRow 1, idRow 2], limit := 5, total := 10, bad := false }
    else if off = 3 then
      { records := [idRow 3, idRow 4, idRow 5, idRow 6, idRow 7], limit := 5, total := 10, bad := false }
    else { records := [], limit := 5, total := 10, bad := false }

/-- A remote whose every page is empty. -/
def remoteEmpty : Nat → Page :=
  fun _ => { records := [], limit := 10, total := 10, bad := false }

/-- A conforming remote for the C6 witness: echoes the requested limit
0 and returns no rows. -/
def remoteLim0 : Nat → Page :=
  fun _ => { records := [], limit := 0, total := 10, bad := false }

/-- Remote for the C3 witness: a single matching row at offset 0,
nothing afterwards. -/
def remoteOne : Nat → Page :=
  fun off =>
    if off = 0 then { records := [rowN], limit := 10, total := 10, bad := false }
    else { records := [], limit := 10, total := 10, bad := false }
/-! Helper lemmas about lookup and filter on association lists. -/

theorem lookup_cons_eq (k : String) (v1 : Val) (tl : Row) :
    ((k, v1) :: tl).lookup k = some v1 := by
  simp [List.lookup_cons]

theorem lookup_cons_ne (k k1 : String) (v1 : Val) (tl : Row) (h : k ≠ k1) :
    ((k1, v1) :: tl).lookup k = tl.lookup k := by
  have hb : (k == k1) = false := beq_eq_false_iff_ne.mpr h
  simp [List.lookup_cons, hb]

theorem lookup_filter_self (k : String) (d : Row) :
    (d.filter (fun p => p.1 != k)).lookup k = none := by
  induction d with
  | nil => rfl
  | cons hd tl ih =>
    obtain ⟨k1, v1⟩ := hd
    by_cases h : k1 = k
    · have hb : ((k1, v1).1 != k) = false := by simp [h]
      rw [List.filter_cons, hb]
      simpa using ih
    · have hb : ((k1, v1).1 != k) = true := by simp [h]
      rw [List.filter_cons, hb]
      simp only [if_true]
      rw [lookup_cons_ne k k1 v1 _ (Ne.symm h)]
      exact ih

theorem lookup_filter_none (k : String) (q : String × Val → Bool) (d : Row)
    (h : d.lookup k = none) : (d.filter q).lookup k = none := by
  induction d with
  | nil => rfl
  | cons hd tl ih =>
    obtain ⟨k1, v1⟩ := hd
    by_cases hk : k = k1
    · subst hk
      rw [lookup_cons_eq] at h
      simp at h
    · rw [lookup_cons_ne k k1 v1 tl hk] at h
      rw [List.filter_cons]
      by_cases hq : q (k1, v1) = true
      · simp only [hq, if_true]
        rw [lookup_cons_ne k k1 v1 _ hk]
        exact ih h
      · simp only [hq, if_false, Bool.false_eq_true]
        exact ih h

theorem dictPop_rest (k : String) (d : Row) (v : Val) (d2 : Row)
    (h : dictPop k d = some (v, d2)) : d2 = d.filter (fun p => p.1 != k) := by
  unfold dictPop at h
  split at h
  · cases h
  · cases h
    rfl

/-- Any successful `query` comes from a successful `_loadAux` with some
call count. -/
theorem query_ok_ex (cfg : Config) (remote : Nat → Page) (offset limit : Nat)
    (rt : String) (bbox : List Rat) (datetime_ : Option String)
    (props : List (String × Val)) (sortby : List SortEntry) (select : List String)
    (skip : Bool) (q : Option String) (fc : FeatureCollection)
    (h : query cfg remote offset limit rt bbox datetime_ props sortby select skip q
      = Except.ok fc) :
    ∃ n, _loadAux cfg remote offset limit rt none bbox datetime_ props sortby select skip q
      = Except.ok (fc, n) := by
  unfold query at h
  cases hl : _loadAux cfg remote offset limit rt none bbox datetime_ props sortby select skip q with
  | error e => rw [hl] at h; simp [Except.map] at h
  | ok pr =>
    rw [hl] at h
    simp [Except.map] at h
    exact ⟨pr.2, by rw [← h]⟩

/-- Shape of any successful `_loadAux` result: hits mode yields the
empty feature list with only numberMatched; results mode yields only
numberReturned. -/
theorem loadAux_counters (cfg : Config) (remote : Nat → Page) (offset limit : Nat)
    (rt : String) (identifier : Option Val) (bbox : List Rat)
    (datetime_ : Option String) (props : List (String × Val))
    (sortby : List SortEntry) (select : List String) (skip : Bool) (q : Option String)
    (fc : FeatureCollection) (n : Nat)
    (h : _loadAux cfg remote offset limit rt identifier bbox datetime_ props sortby select skip q
      = Except.ok (fc, n)) :
    (fc.numberMatched.isSome = true →
      rt = "hits" ∧ fc.features = [] ∧ fc.numberReturned = none)
    ∧ (fc.numberReturned.isSome = true → fc.numberMatched = none) := by
  unfold _loadAux at h
  split at h
  · cases h
  · dsimp only at h
    by_cases hbad : (remote offset).bad = true
    · rw [if_pos hbad] at h
      cases h
    · rw [if_neg hbad] at h
      by_cases hrt : rt = "hits"
      · rw [if_pos hrt] at h
        cases h
        exact ⟨fun _ => ⟨hrt, rfl, rfl⟩, fun hns => by simp at hns⟩
      · rw [if_neg hrt] at h
        split at h
        · cases h
        · split at h
          · cases h
          · cases h
          next vv calls hlf =>
            cases h
            exact ⟨fun hnm => by simp at hnm, fun _ => rfl⟩

/-- Claim C2, counterexample: with skip geometry requested, `make_feature`
does not remove the coordinate fields from the row, so they appear in the
resulting properties — here the x field survives with its value. -/
theorem C2_skip_leaks_coords :
    (make_feature cfgW rowW true).map (fun ft => ft.properties.lookup "x")
      = Except.ok (some (Val.str "1.5")) := by
  decide

/-- Claim C2, amended: a Feature produced by `make_feature` never carries
the configured id field in `properties`; when skip geometry is false the
two coordinate fields are absent as well.  (When skip geometry is true
the coordinate fields are not removed and can remain in `properties`, as
the counterexample shows.) -/
theorem C2_properties_exclusions (cfg : Config) (f : Row) (skip : Bool) (ft : Feature)
    (h : make_feature cfg f skip = Except.ok ft) :
    ft.properties.lookup cfg.id_field = none
    ∧ (skip = false →
        ft.properties.lookup cfg.x_field = none ∧ ft.properties.lookup cfg.y_field = none) := by
  unfold make_feature at h
  split at h
  · cases h
  next idv f1 hid =>
    have hf1 : f1 = f.filter (fun p => p.1 != cfg.id_field) := dictPop_rest _ _ _ _ hid
    cases skip with
    | true =>
      simp only [Bool.not_true, Bool.false_eq_true, if_false] at h
      cases h
      refine ⟨?_, by intro hc; cases hc⟩
      rw [hf1]
      exact lookup_filter_self _ _
    | false =>
      simp only [Bool.not_false, if_true] at h
      split at h
      · cases h
      next xv f2 hx =>
        have hf2 : f2 = f1.filter (fun p => p.1 != cfg.x_field) := dictPop_rest _ _ _ _ hx
        split at h
        · cases h
        next x hpx =>
          split at h
          · cases h
          next yv f3 hy =>
            have hf3 : f3 = f2.filter (fun p => p.1 != cfg.y_field) := dictPop_rest _ _ _ _ hy
            split at h
            · cases h
            next y hpy =>
              cases h
              have hid1 : f1.lookup cfg.id_field = none := by
                rw [hf1]; exact lookup_filter_self _ _
              have hid2 : f2.lookup cfg.id_field = none := by
                rw [hf2]; exact lookup_filter_none _ _ _ hid1
              have hid3 : f3.lookup cfg.id_field = none := by
                rw [hf3]; exact lookup_filter_none _ _ _ hid2
              have hx2 : f2.lookup cfg.x_field = none := by
                rw [hf2]; exact lookup_filter_self _ _
              have hx3 : f3.lookup cfg.x_field = none := by
                rw [hf3]; exact lookup_filter_none _ _ _ hx2
              have hy3 : f3.lookup cfg.y_field = none := by
                rw [hf3]; exact lookup_filter_self _ _
              exact ⟨hid3, fun _ => ⟨hx3, hy3⟩⟩

/-- Witness for the amended C2 theorem at a concrete row with geometry
requested. -/
theorem C2_properties_exclusions_witness :
    make_feature cfgW rowN false = Except.ok ftN
    ∧ (ftN.properties.lookup cfgW.id_field = none
        ∧ (false = false →
            ftN.properties.lookup cfgW.x_field = none
            ∧ ftN.properties.lookup cfgW.y_field = none)) :=
  ⟨by decide, C2_properties_exclusions cfgW rowN false ftN (by decide)⟩

/-- Claim C7: `_make_where` produces exactly the JSON-object-string
encoding of the map obtained by inserting the pairs in order with last
value winning, and the empty input yields the two-character empty-object
string. -/
theorem C7_make_where_encoding :
    (∀ pairs : List (String × Val), _make_where pairs = jsonDumps (specInsertMap pairs))
    ∧ _make_where [] = "\x7b\x7d" := by
  constructor
  · intro pairs
    cases pairs with
    | nil => rfl
    | cons p t => rfl
  · rfl

/-- Claim C8: for direction symbols drawn from plus and minus,
`_make_orderby` is the comma-join of the per-entry tokens, each the
property name, a space and asc or desc, in input order. -/
theorem C8_orderby_tokens (sortby : List SortEntry)
    (h : ∀ e ∈ sortby, e.order = "+" ∨ e.order = "-") :
    _make_orderby sortby
      = some (String.intercalate ","
          (sortby.map (fun e => e.property ++ " " ++ (if e.order = "+" then "asc" else "desc")))) := by
  have key : ∀ l : List SortEntry, (∀ e ∈ l, e.order = "+" ∨ e.order = "-") →
      orderTokens l
        = some (l.map (fun e => e.property ++ " " ++ (if e.order = "+" then "asc" else "desc"))) := by
    intro l
    induction l with
    | nil => intro _; rfl
    | cons e rest ih =>
      intro hl
      have he := hl e (List.mem_cons_self e rest)
      have hrest := ih (fun x hx => hl x (List.mem_cons_of_mem e hx))
      rcases he with he | he
      · simp [orderTokens, orderToken, dirLookup, he, hrest]
      · simp [orderTokens, orderToken, dirLookup, he, hrest]
  simp [_make_orderby, key sortby h]

/-- Witness for C8 at the spec example input. -/
theorem C8_orderby_tokens_witness :
    _make_orderby [{ property := "x", order := "+" }, { property := "y", order := "-" }]
      = some "x asc,y desc" := by
  rw [C8_orderby_tokens [{ property := "x", order := "+" }, { property := "y", order := "-" }]
    (by decide)]
  decide

/-- Claim C10: with a non-empty configured projection, `get_fields`
permanently replaces the stored projection by its union with the id and
coordinate fields, so the fields request parameter of every later query
contains all three names whatever the caller selects. -/
theorem C10_fields_union (configured : List String) (idf xf yf : String)
    (select : List String) (h : configured ≠ []) :
    get_fields_properties configured idf xf yf = configured.toFinset ∪ {idf, xf, yf}
    ∧ ∃ F, load_fields_param (get_fields_properties configured idf xf yf) select = some F
        ∧ idf ∈ F ∧ xf ∈ F ∧ yf ∈ F := by
  have h1 : get_fields_properties configured idf xf yf = configured.toFinset ∪ {idf, xf, yf} := by
    simp [get_fields_properties, h]
  have hmem : idf ∈ get_fields_properties configured idf xf yf := by
    rw [h1]; simp
  have hne : get_fields_properties configured idf xf yf ≠ ∅ := by
    intro hc
    rw [hc] at hmem
    simp at hmem
  refine ⟨h1, get_fields_properties configured idf xf yf ∪ select.toFinset, ?_, ?_, ?_, ?_⟩
  · simp [load_fields_param, hne]
  · rw [h1]; simp
  · rw [h1]; simp
  · rw [h1]; simp

/-- Witness for C10 at a concrete configured projection. -/
theorem C10_fields_union_witness :
    get_fields_properties ["a"] "i" "x" "y" = (["a"] : List String).toFinset ∪ {"i", "x", "y"}
    ∧ ∃ F, load_fields_param (get_fields_properties ["a"] "i" "x" "y") [] = some F
        ∧ "i" ∈ F ∧ "x" ∈ F ∧ "y" ∈ F :=
  C10_fields_union ["a"] "i" "x" "y" [] (by decide)

/-- The filters component of any successfully built parameter set. -/
theorem buildLoadParams_filters (cfg : Config) (offset limit : Nat) (rt : String)
    (identifier : Option Val) (bbox : List Rat) (props : List (String × Val))
    (sortby : List SortEntry) (select : List String) (p : LoadParams)
    (h : buildLoadParams cfg offset limit rt identifier bbox props sortby select = some p) :
    p.filters = load_filters_param cfg identifier bbox props := by
  unfold buildLoadParams at h
  split at h
  · cases h
  · cases h
    rfl

/-- Claim C9: whenever the filters request parameter is attached, its
value is the `_make_where` encoding of the equality properties alone;
two parameter builds differing only in the bbox agree on every attached
filters value. -/
theorem C9_bbox_filters_independent (cfg : Config) (offset limit : Nat) (rt : String)
    (bbox1 bbox2 : List Rat) (props : List (String × Val)) (sortby : List SortEntry)
    (select : List String) :
    (∀ p s, buildLoadParams cfg offset limit rt none bbox1 props sortby select = some p →
        p.filters = some s → s = _make_where props)
    ∧ (∀ p1 p2 s1 s2,
        buildLoadParams cfg offset limit rt none bbox1 props sortby select = some p1 →
        buildLoadParams cfg offset limit rt none bbox2 props sortby select = some p2 →
        p1.filters = some s1 → p2.filters = some s2 → s1 = s2) := by
  have val : ∀ (bbox : List Rat) (p : LoadParams) (s : String),
      buildLoadParams cfg offset limit rt none bbox props sortby select = some p →
      p.filters = some s → s = _make_where props := by
    intro bbox p s hp hs
    have hf := buildLoadParams_filters cfg offset limit rt none bbox props sortby select p hp
    rw [hs] at hf
    unfold load_filters_param at hf
    by_cases hcond : props ≠ [] ∨ bbox ≠ []
    · rw [if_pos hcond] at hf
      exact Option.some.inj hf
    · rw [if_neg hcond] at hf
      exact (Option.some_ne_none s hf).elim
  refine ⟨val bbox1, ?_⟩
  intro p1 p2 s1 s2 h1 h2 hs1 hs2
  rw [val bbox1 p1 s1 h1 hs1, val bbox2 p2 s2 h2 hs2]

/-- Witness for C9 at a concrete property list and two different
bboxes. -/
theorem C9_bbox_filters_independent_witness :
    "\x7b\"a\": 1\x7d" = _make_where [("a", Val.num 1)] :=
  (C9_bbox_filters_independent cfgW 0 10 "results" [] [(0 : Rat)] [("a", Val.num 1)] [] []).1
    pW "\x7b\"a\": 1\x7d" (by decide) (by decide)

/-- Claim C1 fails on the code: a results-mode `query` with offset 0 and
limit 5 against `remoteC1` returns numberReturned 8, exceeding the
caller-supplied limit, because the fetch loop extends the accumulated
list by whole pages without truncation. -/
theorem C1_overshoot_eval :
    (query cfgW remoteC1 0 5 "results" [] none [] [] [] true none).map
        (fun fc => fc.numberReturned)
      = Except.ok (some 8) ∧ 5 < 8 := by
  constructor
  · decide
  · decide

/-- With fuel at least the distance from the accumulated length to the
target, the fuelled loop never runs out: each iteration either stops or
strictly grows the accumulated list. -/
theorem loopF_isSome (remote : Nat → Page) (mf : Row → Except Err Feature) (step hits : Nat) :
    ∀ (fuel offset : Nat) (v : List Feature) (calls : Nat), hits ≤ fuel + v.length →
      (loopF remote mf step hits fuel offset v calls).isSome = true := by
  intro fuel
  induction fuel with
  | zero =>
    intro offset v calls h
    have hnv : ¬ v.length < hits := by omega
    simp [loopF, hnv]
  | succ n ih =>
    intro offset v calls h
    by_cases hv : v.length < hits
    · simp only [loopF, hv, if_true]
      cases hbad : (remote (offset + step)).bad
      · simp only [hbad, Bool.false_eq_true, if_false]
        cases htr : translate mf (remote (offset + step)).records with
        | error e => simp
        | ok fs =>
          by_cases hfs : fs.length = 0
          · simp [hfs]
          · have hle : hits ≤ n + (v ++ fs).length := by
              rw [List.length_append]
              omega
            simp only [hfs, if_false]
            exact ih (offset + step) (v ++ fs) (calls + 1) hle
      · simp [hbad]
    · simp [loopF, hv]

/-- When the accumulated count has already reached the target, the loop
stops at once, whatever the fuel. -/
theorem loopF_stop (remote : Nat → Page) (mf : Row → Except Err Feature)
    (step hits fuel offset : Nat) (v : List Feature) (calls : Nat)
    (h : hits ≤ v.length) :
    loopF remote mf step hits fuel offset v calls = some (Except.ok (v, calls)) := by
  have hnv : ¬ v.length < hits := by omega
  cases fuel with
  | zero => simp [loopF, hnv]
  | succ n => simp [loopF, hnv]

/-- Claim C4: the fetch loop terminates whenever given fuel covering the
distance to the target; it issues no further call once the accumulated
count reaches the target; and it stops right after the first call whose
page translates to zero rows. -/
theorem C4_loop_terminates (remote : Nat → Page) (mf : Row → Except Err Feature)
    (step hits offset : Nat) (v : List Feature) (calls fuel : Nat)
    (hfuel : hits ≤ fuel + v.length) :
    (loopF remote mf step hits fuel offset v calls).isSome = true
    ∧ (hits ≤ v.length →
        loopF remote mf step hits fuel offset v calls = some (Except.ok (v, calls)))
    ∧ (v.length < hits → (remote (offset + step)).bad = false →
        translate mf (remote (offset + step)).records = Except.ok [] →
        loopF remote mf step hits fuel offset v calls = some (Except.ok (v, calls + 1))) := by
  refine ⟨loopF_isSome remote mf step hits fuel offset v calls hfuel,
    loopF_stop remote mf step hits fuel offset v calls, ?_⟩
  intro hv hbad htr
  obtain ⟨n, rfl⟩ : ∃ n, fuel = n + 1 := ⟨fuel - 1, by omega⟩
  simp [loopF, hv, hbad, htr]

/-- Witness for C4: the loop applied at a concrete state, with the
hypotheses discharged at that input. -/
theorem C4_loop_terminates_witness :
    (loopF remoteEmpty (fun f => make_feature cfgW f true) 0 1 1 0 [] 0).isSome = true :=
  (C4_loop_terminates remoteEmpty (fun f => make_feature cfgW f true) 0 1 0 [] 0 1
    (by decide)).1

/-- Claim C5: in hits mode the collection records the remote-reported
total as numberMatched, has an empty features list and no
numberReturned; any successful result carries numberMatched only in
hits mode and never both counters. -/
theorem C5_hits_vs_results (cfg : Config) (remote : Nat → Page) (offset limit : Nat)
    (bbox : List Rat) (datetime_ : Option String) (props : List (String × Val))
    (sortby : List SortEntry) (select : List String) (skip : Bool) (q : Option String) :
    ((buildLoadParams cfg offset limit "hits" none bbox props sortby select).isSome = true →
      (remote offset).bad = false →
      query cfg remote offset limit "hits" bbox datetime_ props sortby select skip q
        = Except.ok { features := [], numberReturned := none,
                      numberMatched := some (remote offset).total })
    ∧ (∀ rt fc,
        query cfg remote offset limit rt bbox datetime_ props sortby select skip q
          = Except.ok fc →
        (fc.numberMatched.isSome = true →
          rt = "hits" ∧ fc.features = [] ∧ fc.numberReturned = none)
        ∧ (fc.numberReturned.isSome = true → fc.numberMatched = none)) := by
  constructor
  · intro hp hb
    obtain ⟨p, hpe⟩ := Option.isSome_iff_exists.mp hp
    unfold query _loadAux
    rw [hpe]
    dsimp only
    rw [if_neg (by simp [hb])]
    rw [if_pos rfl]
    rfl
  · intro rt fc hq
    obtain ⟨n, hn⟩ :=
      query_ok_ex cfg remote offset limit rt bbox datetime_ props sortby select skip q fc hq
    exact loadAux_counters cfg remote offset limit rt none bbox datetime_ props sortby select
      skip q fc n hn

/-- Witness for C5 in hits mode at a concrete remote reporting total
10. -/
theorem C5_hits_vs_results_witness :
    query cfgW remoteEmpty 0 10 "hits" [] none [] [] [] false none
      = Except.ok { features := [], numberReturned := none, numberMatched := some 10 } :=
  (C5_hits_vs_results cfgW remoteEmpty 0 10 [] none [] [] [] false none).1 (by decide) rfl

/-- Claim C6: a results-mode query with limit 0, against a remote that
honours it (empty first page, echoed limit 0), returns the empty
feature list after exactly the one initial call — the paging loop never
runs. -/
theorem C6_limit_zero (cfg : Config) (remote : Nat → Page) (offset : Nat)
    (bbox : List Rat) (datetime_ : Option String) (props : List (String × Val))
    (sortby : List SortEntry) (select : List String) (skip : Bool) (q : Option String)
    (hp : (buildLoadParams cfg offset 0 "results" none bbox props sortby select).isSome = true)
    (hb : (remote offset).bad = false)
    (hr : (remote offset).records = [])
    (hl : (remote offset).limit = 0) :
    _loadAux cfg remote offset 0 "results" none bbox datetime_ props sortby select skip q
      = Except.ok ({ features := [], numberReturned := some 0, numberMatched := none }, 1)
    ∧ query cfg remote offset 0 "results" bbox datetime_ props sortby select skip q
      = Except.ok { features := [], numberReturned := some 0, numberMatched := none } := by
  obtain ⟨p, hpe⟩ := Option.isSome_iff_exists.mp hp
  have htr : translate (fun f => make_feature cfg f skip) (remote offset).records
      = Except.ok [] := by
    rw [hr]
    rfl
  have hmain : _loadAux cfg remote offset 0 "results" none bbox datetime_ props sortby select skip q
      = Except.ok ({ features := [], numberReturned := some 0, numberMatched := none }, 1) := by
    unfold _loadAux
    rw [hpe]
    dsimp only
    rw [if_neg (by simp [hb])]
    rw [if_neg (by decide : ¬ ("results" : String) = "hits")]
    rw [htr]
    dsimp only
    rw [hl]
    simp [loopF]
  refine ⟨hmain, ?_⟩
  unfold query
  rw [hmain]
  rfl

/-- Witness for C6 at a concrete conforming remote. -/
theorem C6_limit_zero_witness :
    _loadAux cfgW remoteLim0 0 0 "results" none [] none [] [] [] false none
      = Except.ok ({ features := [], numberReturned := some 0, numberMatched := none }, 1)
    ∧ query cfgW remoteLim0 0 0 "results" [] none [] [] [] false none
      = Except.ok { features := [], numberReturned := some 0, numberMatched := none } :=
  C6_limit_zero cfgW remoteLim0 0 [] none [] [] [] false none (by decide) rfl rfl rfl

/-- Claim C3: if the remote yields zero matching rows, `get` fails with
the empty-sequence access error; if exactly one row matches, `get`
returns exactly that Feature. -/
theorem C3_get_endpoints (cfg : Config) (remote : Nat → Page) (identifier : Val) :
    ((remote 0).bad = false → (remote 0).records = [] →
      get cfg remote identifier = Except.error Err.indexError)
    ∧ (∀ row ft, (remote 0).bad = false → (remote 0).records = [row] →
        (remote 1).bad = false → (remote 1).records = [] →
        make_feature cfg row false = Except.ok ft →
        get cfg remote identifier = Except.ok ft) := by
  constructor
  · intro hb hr
    have htr : translate (fun f => make_feature cfg f false) (remote 0).records
        = Except.ok [] := by
      rw [hr]
      rfl
    have hloop : ∀ m : Nat, ∃ c : Nat,
        loopF remote (fun f => make_feature cfg f false) 0 m m 0 [] 0
          = some (Except.ok ([], c)) := by
      intro m
      cases m with
      | zero => exact ⟨0, by simp [loopF]⟩
      | succ k =>
        refine ⟨1, ?_⟩
        simp [loopF, hb, htr]
    obtain ⟨c, hc⟩ := hloop (min (remote 0).limit cfg.numFeatures)
    unfold get _loadAux buildLoadParams load_sort_param
    dsimp only
    rw [if_neg (by simp [hb])]
    rw [if_neg (by decide : ¬ ("results" : String) = "hits")]
    rw [htr]
    dsimp only
    simp only [List.length_nil]
    rw [hc]
    rfl
  · intro row ft hb0 hr0 hb1 hr1 hmf
    have htr : translate (fun f => make_feature cfg f false) (remote 0).records
        = Except.ok [ft] := by
      rw [hr0]
      simp [translate, hmf]
    have htr1 : translate (fun f => make_feature cfg f false) (remote 1).records
        = Except.ok [] := by
      rw [hr1]
      rfl
    have hloop : ∀ m : Nat, ∃ c : Nat,
        loopF remote (fun f => make_feature cfg f false) 1 m m 0 [ft] 0
          = some (Except.ok ([ft], c)) := by
      intro m
      rcases Nat.lt_or_ge 1 m with hm | hm
      · obtain ⟨k, rfl⟩ : ∃ k, m = k + 1 := ⟨m - 1, by omega⟩
        refine ⟨1, ?_⟩
        simp [loopF, hm, hb1, htr1]
      · exact ⟨0, loopF_stop remote _ 1 m m 0 [ft] 0 (by simpa using hm)⟩
    obtain ⟨c, hc⟩ := hloop (min (remote 0).limit cfg.numFeatures)
    unfold get _loadAux buildLoadParams load_sort_param
    dsimp only
    rw [if_neg (by simp [hb0])]
    rw [if_neg (by decide : ¬ ("results" : String) = "hits")]
    rw [htr]
    dsimp only
    simp only [List.length_singleton]
    rw [hc]
    rfl

/-- Witness for C3 at a concrete one-row remote. -/
theorem C3_get_endpoints_witness :
    get cfgW remoteOne (Val.str "5") = Except.ok ftN :=
  (C3_get_endpoints cfgW remoteOne (Val.str "5")).2 rowN ftN rfl rfl rfl rfl (by decide)

end CKAN
